import Mathlib

/-!
Shallow embedding of `src/python-server/EmotionDetectionServer.py`.

The server keeps a camera handle (`cv2.VideoCapture`), a running flag, the
latest emotion reading (`current_emotion_data`, a dict replaced wholesale
under `data_lock`), a frame-skip counter, and a last-successful-detection
clock.  The detection loop reads frames, locates faces with a Haar cascade,
crops the largest face and classifies it with DeepFace.

External collaborators (cv2 face detection, DeepFace.analyze, the clock) are
modelled as per-frame oracle inputs: each processed frame carries the region
list the cascade returned and the outcome of `DeepFace.analyze` as a function
of the cropped region.  Exceptions are modelled with `Except String`.
Numeric scores are rationals; timestamps are abstract `Nat` clock values.
-/

/-- A `cv2.VideoCapture` handle: constructing one always yields an object;
`isOpened` records whether the device was actually acquired. -/
structure Camera where
  isOpened : Bool
deriving DecidableEq

/-- A face bounding box as returned by `detectMultiScale`: `(x, y, w, h)`. -/
structure Region where
  x : Nat
  y : Nat
  w : Nat
  h : Nat
deriving DecidableEq

/-- Bounding-box area `face[2] * face[3]`, the key of the `max` call in
`process_frame`. -/
def area (r : Region) : Nat := r.w * r.h

/-- One element of the list returned by `DeepFace.analyze`:
`result[0]['emotion']` (the score distribution) and
`result[0]['dominant_emotion']`. -/
structure AnalyzeResult where
  emotion_scores : List (String × ℚ)
  dominant_emotion : String

/-- The `current_emotion_data` dict.  Keys that are present only on some
branches (`emotion_scores`, `error`) are `Option` fields. -/
structure Reading where
  emotion : String
  confidence : ℚ
  timestamp : Nat
  faces_detected : Nat
  emotion_scores : Option (List (String × ℚ))
  error : Option String
deriving DecidableEq

/-- The mutable fields of `EmotionDetectionServer`, plus two event-recording
fields used to state claims about side effects: `camera_opens` counts
`cv2.VideoCapture` constructions and `threads_spawned` counts detection
threads started. -/
structure ServerState where
  cap : Option Camera
  face_cascade_loaded : Bool
  detection_running : Bool
  current_emotion_data : Reading
  frame_skip_count : Nat
  process_every_n_frames : Nat
  last_successful_detection : Nat
  camera_opens : Nat
  threads_spawned : Nat
deriving DecidableEq

/-- The placeholder reading installed in `__init__`:
`{'emotion': 'unknown', 'confidence': 0.0, 'timestamp': ..., 'faces_detected': 0}`. -/
def initialReading (t : Nat) : Reading :=
  { emotion := "unknown", confidence := 0, timestamp := t,
    faces_detected := 0, emotion_scores := none, error := none }

/-- The state set up by `EmotionDetectionServer.__init__` (clock values `t0`
for `datetime.now()` and `m0` for `time.time()`). -/
def initState (t0 m0 : Nat) : ServerState :=
  { cap := none, face_cascade_loaded := false, detection_running := false,
    current_emotion_data := initialReading t0,
    frame_skip_count := 0, process_every_n_frames := 3,
    last_successful_detection := m0, camera_opens := 0, threads_spawned := 0 }

/-- Oracle data for one processed frame: the region list the Haar cascade
returns on this frame, the outcome of `DeepFace.analyze` as a function of the
cropped region, and the clock values `datetime.now()` / `time.time()` at this
iteration. -/
structure FrameData where
  faces : List Region
  classify : Region → Except String (List AnalyzeResult)
  now : Nat
  mono : Nat

/-- Python `max(faces, key=lambda face: face[2] * face[3])` on a nonempty
list: left-to-right scan keeping the current best, replacing it only on a
strictly larger key, so the first maximal element wins. -/
def pyMaxAux (best : Region) : List Region → Region
  | [] => best
  | r :: rs => if area best < area r then pyMaxAux r rs else pyMaxAux best rs

/-- The `largest_face` selection in `process_frame` (`none` when the region
list is empty, in which case the code returns before the `max` call). -/
def largestFace : List Region → Option Region
  | [] => none
  | r :: rs => some (pyMaxAux r rs)

/-- `emotion_scores[dominant_emotion]`: dict lookup, `none` models the
`KeyError` path swallowed by the surrounding `except`. -/
def lookupScore (scores : List (String × ℚ)) (label : String) : Option ℚ :=
  (scores.find? (fun p => p.1 == label)).map (fun p => p.2)

/-- The reading written when `len(faces) == 0`. -/
def noFaceReading (t : Nat) : Reading :=
  { emotion := "no_face", confidence := 0, timestamp := t,
    faces_detected := 0, emotion_scores := none, error := none }

/-- The reading written by the `except` handler of `process_frame`:
`{'emotion': 'error', ..., 'faces_detected': 0, 'error': str(e)}`. -/
def errorReading (t : Nat) (msg : String) : Reading :=
  { emotion := "error", confidence := 0, timestamp := t,
    faces_detected := 0, emotion_scores := none, error := some msg }

/-- The reading written on successful classification: dominant label, its
score, total region count and the full score distribution. -/
def successReading (t : Nat) (nFaces : Nat) (r0 : AnalyzeResult) (conf : ℚ) :
    Reading :=
  { emotion := r0.dominant_emotion, confidence := conf, timestamp := t,
    faces_detected := nFaces, emotion_scores := some r0.emotion_scores,
    error := none }

/-- The part of `process_frame` after the `len(faces) == 0` early return:
crop the largest face, run `DeepFace.analyze` on it, and on a non-empty
result update the reading and `last_successful_detection`; classifier
exceptions (including the `KeyError` lookup) fall to the `except` handler. -/
def classifyStep (s : ServerState) (fd : FrameData) (f : Region)
    (fs : List Region) : ServerState :=
  match fd.classify (pyMaxAux f fs) with
  | Except.error e => { s with current_emotion_data := errorReading fd.now e }
  | Except.ok [] => s
  | Except.ok (r0 :: _) =>
    match lookupScore r0.emotion_scores r0.dominant_emotion with
    | none => { s with current_emotion_data := errorReading fd.now "KeyError" }
    | some conf =>
      { s with
        current_emotion_data := successReading fd.now fd.faces.length r0 conf,
        last_successful_detection := fd.mono }

/-- `process_frame`: zero faces publishes the `no_face` reading; otherwise
the largest face is classified via `classifyStep`. -/
def process_frame (s : ServerState) (fd : FrameData) : ServerState :=
  match fd.faces with
  | [] => { s with current_emotion_data := noFaceReading fd.now }
  | f :: fs => classifyStep s fd f fs

/-- `initialize_camera`: release any old handle, construct a new
`cv2.VideoCapture` (counted in `camera_opens`), and report whether it opened.
On failure the unopened handle is still stored in `self.cap`. -/
def initialize_camera (s : ServerState) (newCam : Camera) :
    ServerState × Bool :=
  ({ s with cap := some newCam, camera_opens := s.camera_opens + 1 },
   newCam.isOpened)

/-- `start_camera_detection`: early `return True` when already running;
otherwise load the cascade, open the camera (failure leaves the flag down and
spawns nothing), then set `detection_running` and start the thread. -/
def start_camera_detection (s : ServerState) (cascade_ok : Bool)
    (newCam : Camera) : ServerState × Bool :=
  if s.detection_running then (s, true)
  else
    let sc := { s with face_cascade_loaded := cascade_ok }
    if !cascade_ok then (sc, false)
    else
      let s2 := (initialize_camera sc newCam).1
      if !newCam.isOpened then (s2, false)
      else
        ({ s2 with detection_running := true,
                   threads_spawned := s2.threads_spawned + 1 }, true)

/-- `stop_camera_detection`: clear the flag and release the handle. -/
def stop_camera_detection (s : ServerState) : ServerState :=
  { s with detection_running := false, cap := none }

/-- Oracle data for one pass of the detection loop: the `ret` flag of
`cap.read()` and the frame-derived data used when the frame is processed. -/
structure Tick where
  ret : Bool
  fd : FrameData

/-- Why a run of the modelled detection loop ended. -/
inductive ExitReason where
  | signalled      -- the `while self.detection_running` condition was false
  | cameraLost     -- the `break` when `cap` is absent or not opened
  | fuelExhausted  -- the supplied tick list ran out with the loop still live
deriving DecidableEq

/-- `detection_loop`, driven by a finite list of ticks.  Each pass: check the
running flag, bump the skip counter (sleep-and-continue while below
`process_every_n_frames`), check camera availability (`break` when gone),
read a frame (`continue` on failure), and process it. -/
def detection_loop (s : ServerState) : List Tick → ServerState × ExitReason
  | [] => (s, ExitReason.fuelExhausted)
  | t :: rest =>
    if s.detection_running then
      if s.frame_skip_count + 1 < s.process_every_n_frames then
        detection_loop { s with frame_skip_count := s.frame_skip_count + 1 } rest
      else
        match s.cap with
        | none => ({ s with frame_skip_count := 0 }, ExitReason.cameraLost)
        | some c =>
          if !c.isOpened then ({ s with frame_skip_count := 0 }, ExitReason.cameraLost)
          else if !t.ret then detection_loop { s with frame_skip_count := 0 } rest
          else detection_loop (process_frame { s with frame_skip_count := 0 } t.fd) rest
    else (s, ExitReason.signalled)

/-- The body of the `/status` handler. -/
structure StatusResponse where
  server_running : Bool
  detection_running : Bool
  camera_connected : Bool
  last_detection : Nat
  timestamp : Nat
deriving DecidableEq

/-- `get_status`: `camera_connected` is `cap.isOpened()` when a handle
exists, `False` when `self.cap` is `None`. -/
def get_status (s : ServerState) (now : Nat) : StatusResponse :=
  { server_running := true,
    detection_running := s.detection_running,
    camera_connected := match s.cap with
      | none => false
      | some c => c.isOpened,
    last_detection := s.last_successful_detection,
    timestamp := now }

/-- Outcome of one `app.run(...)` attempt on a port. -/
inductive BindOutcome where
  | ok
  | osError (msg : String)
  | otherError (msg : String)

/-- Which port the server ended up serving on. -/
inductive ServeResult where
  | servedPrimary
  | servedFallback
deriving DecidableEq

/-- Whether `pat` occurs at the start of `l`. -/
def charsStartWith : List Char → List Char → Bool
  | [], _ => true
  | _ :: _, [] => false
  | p :: ps, c :: cs => p == c && charsStartWith ps cs

/-- Whether `pat` occurs contiguously anywhere in `l`. -/
def charsContain (pat : List Char) : List Char → Bool
  | [] => charsStartWith pat []
  | c :: cs => charsStartWith pat (c :: cs) || charsContain pat cs

/-- The `"Address already in use" in str(e)` test of `run_server`. -/
def addressInUse (msg : String) : Bool :=
  charsContain "Address already in use".toList msg.toList

/-- `run_server`: try the primary port; on an `OSError` mentioning
"Address already in use" retry on the fallback port, re-raising any fallback
failure; every other failure is re-raised. -/
def run_server (primary fallback : BindOutcome) : Except String ServeResult :=
  match primary with
  | BindOutcome.ok => Except.ok ServeResult.servedPrimary
  | BindOutcome.osError m =>
    if addressInUse m then
      match fallback with
      | BindOutcome.ok => Except.ok ServeResult.servedFallback
      | BindOutcome.osError m2 => Except.error m2
      | BindOutcome.otherError m2 => Except.error m2
    else Except.error m
  | BindOutcome.otherError m => Except.error m

/-!  Properties of the largest-face selection. -/

/-- `sel` splits `faces` as `l1 ++ sel :: l2` with strictly smaller areas
before it and no larger area after it: `sel` is the first region of maximal
bounding-box area in detector output order. -/
def FirstMaxArea (faces : List Region) (sel : Region) : Prop :=
  ∃ l1 l2, faces = l1 ++ sel :: l2 ∧ (∀ r ∈ l1, area r < area sel) ∧
    ∀ r ∈ l2, area r ≤ area sel

theorem pyMaxAux_split (l : List Region) (best : Region) :
    (pyMaxAux best l = best ∧ ∀ r ∈ l, area r ≤ area best) ∨
    (area best < area (pyMaxAux best l) ∧ FirstMaxArea l (pyMaxAux best l)) := by
  induction l generalizing best with
  | nil => exact Or.inl ⟨rfl, by simp⟩
  | cons r rs ih =>
    by_cases h : area best < area r
    · have hred : pyMaxAux best (r :: rs) = pyMaxAux r rs := by
        simp [pyMaxAux, h]
      rw [hred]
      rcases ih r with ⟨heq, hmax⟩ | ⟨hlt, l1, l2, hsplit, h1, h2⟩
      · refine Or.inr ⟨?_, [], rs, ?_, ?_, ?_⟩
        · rw [heq]; exact h
        · rw [heq]; rfl
        · intro x hx; simp at hx
        · rw [heq]; exact hmax
      · refine Or.inr ⟨h.trans hlt, r :: l1, l2, ?_, ?_, h2⟩
        · exact congrArg (List.cons r) hsplit
        · intro x hx
          rcases List.mem_cons.mp hx with hx | hx
          · rw [hx]; exact hlt
          · exact h1 x hx
    · have hred : pyMaxAux best (r :: rs) = pyMaxAux best rs := by
        simp [pyMaxAux, h]
      rw [hred]
      rcases ih best with ⟨heq, hmax⟩ | ⟨hlt, l1, l2, hsplit, h1, h2⟩
      · refine Or.inl ⟨heq, ?_⟩
        intro x hx
        rcases List.mem_cons.mp hx with hx | hx
        · rw [hx]; exact Nat.le_of_not_lt h
        · exact hmax x hx
      · refine Or.inr ⟨hlt, r :: l1, l2, ?_, ?_, h2⟩
        · exact congrArg (List.cons r) hsplit
        · intro x hx
          rcases List.mem_cons.mp hx with hx | hx
          · rw [hx]; exact Nat.lt_of_le_of_lt (Nat.le_of_not_lt h) hlt
          · exact h1 x hx

theorem largestFace_firstMax (faces : List Region) (sel : Region)
    (h : largestFace faces = some sel) : FirstMaxArea faces sel := by
  cases faces with
  | nil => simp [largestFace] at h
  | cons f fs =>
    have hsel : pyMaxAux f fs = sel := by
      simpa [largestFace] using h
    rcases pyMaxAux_split fs f with ⟨heq, hmax⟩ | ⟨hlt, l1, l2, hsplit, h1, h2⟩
    · refine ⟨[], fs, ?_, ?_, ?_⟩
      · rw [← hsel, heq]; rfl
      · intro x hx; simp at hx
      · rw [← hsel, heq]; exact hmax
    · rw [hsel] at hlt hsplit h1 h2
      refine ⟨f :: l1, l2, ?_, ?_, h2⟩
      · exact congrArg (List.cons f) hsplit
      · intro x hx
        rcases List.mem_cons.mp hx with hx | hx
        · rw [hx]; exact hlt
        · exact h1 x hx

theorem FirstMaxArea.mem_faces (faces : List Region) (sel : Region)
    (h : FirstMaxArea faces sel) : sel ∈ faces := by
  obtain ⟨l1, l2, rfl, -, -⟩ := h
  simp

theorem FirstMaxArea.area_le (faces : List Region) (sel : Region)
    (h : FirstMaxArea faces sel) : ∀ r ∈ faces, area r ≤ area sel := by
  obtain ⟨l1, l2, rfl, h1, h2⟩ := h
  intro r hr
  rcases List.mem_append.mp hr with hr | hr
  · exact Nat.le_of_lt (h1 r hr)
  · rcases List.mem_cons.mp hr with hr | hr
    · rw [hr]
    · exact h2 r hr

/-- Claim C5: when the face locator returns an empty region list,
`process_frame` replaces the current reading with emotion `no_face`,
confidence 0, face count 0, a fresh timestamp, and no scores field. -/
theorem C5_no_face_update (s : ServerState) (fd : FrameData)
    (h : fd.faces = []) :
    (process_frame s fd).current_emotion_data =
      { emotion := "no_face", confidence := 0, timestamp := fd.now,
        faces_detected := 0, emotion_scores := none, error := none } := by
  simp [process_frame, h, noFaceReading]

def fdC5 : FrameData :=
  { faces := [], classify := fun _ => Except.ok [], now := 11, mono := 4 }

theorem C5_witness :
    fdC5.faces = [] ∧
    (process_frame (initState 0 0) fdC5).current_emotion_data =
      { emotion := "no_face", confidence := 0, timestamp := 11,
        faces_detected := 0, emotion_scores := none, error := none } :=
  ⟨rfl, C5_no_face_update (initState 0 0) fdC5 rfl⟩

/-- Claim C4: on a non-empty region list with a successful classification,
the engine selects the first region of maximal bounding-box area `w*h` and
publishes a reading with the dominant label, that label's score, the total
region count and the full score distribution. -/
theorem C4_largest_face_success_update (s : ServerState) (fd : FrameData)
    (f sel : Region) (fs : List Region) (r0 : AnalyzeResult)
    (rest : List AnalyzeResult) (c : ℚ)
    (hfaces : fd.faces = f :: fs)
    (hsel : largestFace fd.faces = some sel)
    (hclass : fd.classify sel = Except.ok (r0 :: rest))
    (hconf : lookupScore r0.emotion_scores r0.dominant_emotion = some c) :
    (sel ∈ fd.faces ∧ (∀ r ∈ fd.faces, area r ≤ area sel) ∧
      FirstMaxArea fd.faces sel) ∧
    (process_frame s fd).current_emotion_data =
      { emotion := r0.dominant_emotion, confidence := c, timestamp := fd.now,
        faces_detected := fd.faces.length, emotion_scores := some r0.emotion_scores,
        error := none } := by
  have hfm : FirstMaxArea fd.faces sel := largestFace_firstMax fd.faces sel hsel
  refine ⟨⟨FirstMaxArea.mem_faces fd.faces sel hfm,
           FirstMaxArea.area_le fd.faces sel hfm, hfm⟩, ?_⟩
  have hsel2 : pyMaxAux f fs = sel := by
    rw [hfaces] at hsel
    simpa [largestFace] using hsel
  rw [process_frame, hfaces]
  simp only [classifyStep, hsel2, hclass, hconf, successReading, hfaces]

def regC4a : Region := { x := 0, y := 0, w := 40, h := 40 }

def selC4 : Region := { x := 100, y := 100, w := 60, h := 60 }

def resC4 : AnalyzeResult :=
  { emotion_scores := [("happy", 812/10), ("sad", 31/10)],
    dominant_emotion := "happy" }

def fdC4 : FrameData :=
  { faces := [regC4a, selC4], classify := fun _ => Except.ok [resC4],
    now := 42, mono := 43 }

theorem C4_witness :
    fdC4.faces = regC4a :: [selC4] ∧
    largestFace fdC4.faces = some selC4 ∧
    fdC4.classify selC4 = Except.ok [resC4] ∧
    lookupScore resC4.emotion_scores resC4.dominant_emotion = some (812/10) ∧
    selC4 ∈ fdC4.faces ∧
    (process_frame (initState 0 0) fdC4).current_emotion_data =
      { emotion := "happy", confidence := 812/10, timestamp := 42,
        faces_detected := 2,
        emotion_scores := some [("happy", 812/10), ("sad", 31/10)],
        error := none } :=
  ⟨rfl, by decide, rfl, rfl,
   (C4_largest_face_success_update (initState 0 0) fdC4 regC4a selC4 [selC4]
      resC4 [] (812/10) rfl (by decide) rfl rfl).1.1,
   (C4_largest_face_success_update (initState 0 0) fdC4 regC4a selC4 [selC4]
      resC4 [] (812/10) rfl (by decide) rfl rfl).2⟩

/-- Claim C10: when the classifier returns without raising but with an empty
result list, `process_frame` leaves the whole server state unchanged: no
reading update and no `last_successful_detection` update. -/
theorem C10_empty_result_no_update (s : ServerState) (fd : FrameData)
    (f : Region) (fs : List Region)
    (hfaces : fd.faces = f :: fs)
    (hres : fd.classify (pyMaxAux f fs) = Except.ok []) :
    process_frame s fd = s := by
  rw [process_frame, hfaces]
  simp only [classifyStep, hres]

def fdC10 : FrameData :=
  { faces := [{ x := 1, y := 2, w := 50, h := 50 }],
    classify := fun _ => Except.ok [], now := 17, mono := 18 }

theorem C10_witness :
    fdC10.faces = [{ x := 1, y := 2, w := 50, h := 50 }] ∧
    fdC10.classify (pyMaxAux { x := 1, y := 2, w := 50, h := 50 } []) =
      Except.ok [] ∧
    process_frame (initState 3 5) fdC10 = initState 3 5 :=
  ⟨rfl, rfl,
   C10_empty_result_no_update (initState 3 5) fdC10
     { x := 1, y := 2, w := 50, h := 50 } [] rfl rfl⟩

/-- Claim C9: an `OSError` mentioning "Address already in use" on the primary
port makes `run_server` retry on the fallback port; a failure on the fallback
port is propagated to the caller, not swallowed. -/
theorem C9_port_fallback (mp : String) (h : addressInUse mp = true) :
    run_server (BindOutcome.osError mp) BindOutcome.ok =
      Except.ok ServeResult.servedFallback ∧
    (∀ m2, run_server (BindOutcome.osError mp) (BindOutcome.osError m2) =
      Except.error m2) ∧
    (∀ m2, run_server (BindOutcome.osError mp) (BindOutcome.otherError m2) =
      Except.error m2) := by
  refine ⟨?_, ?_, ?_⟩ <;> simp [run_server, h]

theorem C9_witness :
    addressInUse "OSError: Address already in use" = true ∧
    run_server (BindOutcome.osError "OSError: Address already in use")
      BindOutcome.ok = Except.ok ServeResult.servedFallback ∧
    run_server (BindOutcome.osError "OSError: Address already in use")
      (BindOutcome.osError "fallback also in use") =
      Except.error "fallback also in use" :=
  ⟨by decide,
   (C9_port_fallback "OSError: Address already in use" (by decide)).1,
   (C9_port_fallback "OSError: Address already in use" (by decide)).2.1
     "fallback also in use"⟩

/-!  What the loop body leaves untouched. -/

theorem classifyStep_preserves (s : ServerState) (fd : FrameData)
    (f : Region) (fs : List Region) :
    (classifyStep s fd f fs).cap = s.cap ∧
    (classifyStep s fd f fs).detection_running = s.detection_running ∧
    (classifyStep s fd f fs).process_every_n_frames = s.process_every_n_frames ∧
    (classifyStep s fd f fs).frame_skip_count = s.frame_skip_count := by
  unfold classifyStep
  split
  · exact ⟨rfl, rfl, rfl, rfl⟩
  · exact ⟨rfl, rfl, rfl, rfl⟩
  · split
    · exact ⟨rfl, rfl, rfl, rfl⟩
    · exact ⟨rfl, rfl, rfl, rfl⟩

theorem process_frame_preserves (s : ServerState) (fd : FrameData) :
    (process_frame s fd).cap = s.cap ∧
    (process_frame s fd).detection_running = s.detection_running ∧
    (process_frame s fd).process_every_n_frames = s.process_every_n_frames ∧
    (process_frame s fd).frame_skip_count = s.frame_skip_count := by
  unfold process_frame
  split
  · exact ⟨rfl, rfl, rfl, rfl⟩
  · exact classifyStep_preserves _ _ _ _

theorem detection_loop_preserves_running (ticks : List Tick)
    (s : ServerState) :
    (detection_loop s ticks).1.detection_running = s.detection_running := by
  induction ticks generalizing s with
  | nil => rfl
  | cons t rest ih =>
    rw [detection_loop]
    split
    · split
      · exact ih _
      · split
        · rfl
        · split
          · rfl
          · split
            · exact ih _
            · rw [ih _]
              exact (process_frame_preserves _ _).2.1
    · rfl

/-- A state with the running flag up and the camera handle absent: the state
left behind when the detection thread is alive but `cap` was cleared. -/
def sC3 : ServerState := { initState 0 0 with detection_running := true }

/-- An idle tick: the frame read fails, nothing is classified. -/
def tick0 : Tick :=
  { ret := false,
    fd := { faces := [], classify := fun _ => Except.ok [], now := 0,
            mono := 0 } }

/-- Claim C3 counterexample: from a running state whose camera handle is
absent, the loop takes the `break` (`cameraLost`), yet `detection_running`
is still `true` afterwards — the engine did not transition to Idle. -/
theorem C3_counterexample :
    (detection_loop sC3 [tick0, tick0, tick0]).2 = ExitReason.cameraLost ∧
    (detection_loop sC3 [tick0, tick0, tick0]).1.detection_running = true :=
  ⟨rfl, rfl⟩

/-- Claim C3 (amended): when the loop observes the frame source unavailable
it exits (`cameraLost`), but `detection_running` keeps its prior value, so
the engine stays nominally Running; only `stop_camera_detection` clears the
flag. -/
theorem C3_amended_camera_lost (s : ServerState) (ticks : List Tick)
    (hrun : s.detection_running = true)
    (_hexit : (detection_loop s ticks).2 = ExitReason.cameraLost) :
    (detection_loop s ticks).1.detection_running = true := by
  rw [detection_loop_preserves_running]
  exact hrun

/-- A running state whose camera handle exists but is not opened. -/
def sC3b : ServerState :=
  { initState 0 0 with detection_running := true,
                       cap := some { isOpened := false } }

theorem C3_witness :
    sC3b.detection_running = true ∧
    (detection_loop sC3b [tick0, tick0, tick0]).2 = ExitReason.cameraLost ∧
    (detection_loop sC3b [tick0, tick0, tick0]).1.detection_running = true :=
  ⟨rfl, rfl, C3_amended_camera_lost sC3b [tick0, tick0, tick0] rfl rfl⟩

/-- A tick on which the frame is read but the classifier raises. -/
def ErrTick (t : Tick) : Prop :=
  t.ret = true ∧ t.fd.faces ≠ [] ∧
    ∃ m, ∀ reg, t.fd.classify reg = Except.error m

theorem detection_loop_all_errors (ticks : List Tick) (s : ServerState)
    (c : Camera)
    (hrun : s.detection_running = true) (hcap : s.cap = some c)
    (hopen : c.isOpened = true) (herr : ∀ t ∈ ticks, ErrTick t) :
    (detection_loop s ticks).2 = ExitReason.fuelExhausted ∧
    (detection_loop s ticks).1.detection_running = true := by
  induction ticks generalizing s with
  | nil => exact ⟨rfl, hrun⟩
  | cons t rest ih =>
    have ht := herr t (List.mem_cons_self t rest)
    rw [detection_loop, if_pos hrun]
    split
    · exact ih _ hrun hcap (fun x hx => herr x (List.mem_cons_of_mem t hx))
    · rw [hcap]
      simp only [hopen, ht.1, Bool.not_true, Bool.false_eq_true, if_false]
      have hpres := process_frame_preserves
        { s with cap := some c, frame_skip_count := 0 } t.fd
      exact ih _ (hpres.2.1.trans hrun) hpres.1
        (fun x hx => herr x (List.mem_cons_of_mem t hx))

/-- Claim C6 (amended): when the classifier raises with message `m`, the
reading is replaced by emotion `error`, confidence 0, face count 0, a fresh
timestamp and an `error` field carrying `m` (present, but exactly as empty
or non-empty as the exception text); and however many consecutive ticks all
raise, the loop consumes them all without exiting and is still running. -/
theorem C6_amended_classifier_exception (s : ServerState) (fd : FrameData)
    (f : Region) (fs : List Region) (m : String)
    (hfaces : fd.faces = f :: fs)
    (herr : fd.classify (pyMaxAux f fs) = Except.error m) :
    (process_frame s fd).current_emotion_data =
      { emotion := "error", confidence := 0, timestamp := fd.now,
        faces_detected := 0, emotion_scores := none, error := some m } ∧
    (∀ (s2 : ServerState) (c : Camera) (ticks : List Tick),
      s2.detection_running = true → s2.cap = some c → c.isOpened = true →
      (∀ t ∈ ticks, ErrTick t) →
      (detection_loop s2 ticks).2 = ExitReason.fuelExhausted ∧
      (detection_loop s2 ticks).1.detection_running = true) := by
  constructor
  · rw [process_frame, hfaces]
    simp only [classifyStep, herr, errorReading]
  · intro s2 c ticks h1 h2 h3 h4
    exact detection_loop_all_errors ticks s2 c h1 h2 h3 h4

/-- A frame whose classifier call raises an exception whose text is empty
(Python `str(e)` of an exception constructed with no arguments). -/
def fdC6x : FrameData :=
  { faces := [{ x := 0, y := 0, w := 60, h := 60 }],
    classify := fun _ => Except.error "", now := 7, mono := 7 }

/-- Claim C6 counterexample: a classifier exception with empty text yields an
error reading whose `error` field is present but empty, so "a non-empty
errorMessage" fails. -/
theorem C6_counterexample :
    (process_frame (initState 0 0) fdC6x).current_emotion_data.emotion =
      "error" ∧
    (process_frame (initState 0 0) fdC6x).current_emotion_data.error =
      some "" ∧
    ¬ (∃ msg, (process_frame (initState 0 0) fdC6x).current_emotion_data.error
        = some msg ∧ msg ≠ "") := by
  refine ⟨rfl, rfl, ?_⟩
  rintro ⟨msg, hmsg, hne⟩
  have h0 : (process_frame (initState 0 0) fdC6x).current_emotion_data.error =
      some "" := rfl
  rw [h0] at hmsg
  exact hne (Option.some.inj hmsg).symm

/-- A frame whose classifier call raises with the text "boom". -/
def fdC6 : FrameData :=
  { faces := [{ x := 0, y := 0, w := 60, h := 60 }],
    classify := fun _ => Except.error "boom", now := 21, mono := 22 }

/-- A running server with an open camera. -/
def sC6 : ServerState :=
  { initState 0 0 with detection_running := true,
                       cap := some { isOpened := true } }

def tickC6 : Tick := { ret := true, fd := fdC6 }

theorem C6_witness :
    fdC6.faces = [{ x := 0, y := 0, w := 60, h := 60 }] ∧
    fdC6.classify (pyMaxAux { x := 0, y := 0, w := 60, h := 60 } []) =
      Except.error "boom" ∧
    (process_frame sC6 fdC6).current_emotion_data =
      { emotion := "error", confidence := 0, timestamp := 21,
        faces_detected := 0, emotion_scores := none, error := some "boom" } ∧
    (detection_loop sC6 [tickC6, tickC6, tickC6, tickC6]).2 =
      ExitReason.fuelExhausted ∧
    (detection_loop sC6 [tickC6, tickC6, tickC6, tickC6]).1.detection_running =
      true :=
  ⟨rfl, rfl,
   (C6_amended_classifier_exception sC6 fdC6
      { x := 0, y := 0, w := 60, h := 60 } [] "boom" rfl rfl).1,
   ((C6_amended_classifier_exception sC6 fdC6
      { x := 0, y := 0, w := 60, h := 60 } [] "boom" rfl rfl).2
      sC6 { isOpened := true } [tickC6, tickC6, tickC6, tickC6] rfl rfl rfl
      (by
        intro t ht
        have heq : t = tickC6 := by
          simp only [List.mem_cons, List.not_mem_nil, or_false] at ht
          rcases ht with h | h | h | h <;> exact h
        rw [heq]
        exact ⟨rfl, by simp [tickC6, fdC6], "boom", fun reg => rfl⟩)).1,
   ((C6_amended_classifier_exception sC6 fdC6
      { x := 0, y := 0, w := 60, h := 60 } [] "boom" rfl rfl).2
      sC6 { isOpened := true } [tickC6, tickC6, tickC6, tickC6] rfl rfl rfl
      (by
        intro t ht
        have heq : t = tickC6 := by
          simp only [List.mem_cons, List.not_mem_nil, or_false] at ht
          rcases ht with h | h | h | h <;> exact h
        rw [heq]
        exact ⟨rfl, by simp [tickC6, fdC6], "boom", fun reg => rfl⟩)).2⟩

/-!  Which readings can ever be current. -/

/-- Branch equation: no faces detected. -/
theorem process_frame_none (s : ServerState) (fd : FrameData)
    (h : fd.faces = []) :
    process_frame s fd = { s with current_emotion_data := noFaceReading fd.now } := by
  simp [process_frame, h]

/-- Branch equation: classifier exception. -/
theorem process_frame_exn (s : ServerState) (fd : FrameData) (f : Region)
    (fs : List Region) (e : String) (hf : fd.faces = f :: fs)
    (hc : fd.classify (pyMaxAux f fs) = Except.error e) :
    process_frame s fd = { s with current_emotion_data := errorReading fd.now e } := by
  simp [process_frame, hf, classifyStep, hc]

/-- Branch equation: classifier returned an empty result list. -/
theorem process_frame_ok_nil (s : ServerState) (fd : FrameData) (f : Region)
    (fs : List Region) (hf : fd.faces = f :: fs)
    (hc : fd.classify (pyMaxAux f fs) = Except.ok []) :
    process_frame s fd = s := by
  simp [process_frame, hf, classifyStep, hc]

/-- Branch equation: dominant label missing from the score dict
(`KeyError`, swallowed by the `except` handler). -/
theorem process_frame_key_error (s : ServerState) (fd : FrameData)
    (f : Region) (fs : List Region) (r0 : AnalyzeResult)
    (rest : List AnalyzeResult) (hf : fd.faces = f :: fs)
    (hc : fd.classify (pyMaxAux f fs) = Except.ok (r0 :: rest))
    (hl : lookupScore r0.emotion_scores r0.dominant_emotion = none) :
    process_frame s fd =
      { s with current_emotion_data := errorReading fd.now "KeyError" } := by
  simp [process_frame, hf, classifyStep, hc, hl]

/-- Branch equation: successful classification. -/
theorem process_frame_ok (s : ServerState) (fd : FrameData) (f : Region)
    (fs : List Region) (r0 : AnalyzeResult) (rest : List AnalyzeResult)
    (conf : ℚ) (hf : fd.faces = f :: fs)
    (hc : fd.classify (pyMaxAux f fs) = Except.ok (r0 :: rest))
    (hl : lookupScore r0.emotion_scores r0.dominant_emotion = some conf) :
    process_frame s fd =
      { s with
        current_emotion_data := successReading fd.now fd.faces.length r0 conf,
        last_successful_detection := fd.mono } := by
  simp [process_frame, hf, classifyStep, hc, hl]

/-- A genuine classifier label, as opposed to the three sentinels the server
itself writes.  DeepFace labels are drawn from its fixed emotion set, which
contains none of the sentinels. -/
def realLabel (e : String) : Prop :=
  e ≠ "no_face" ∧ e ≠ "unknown" ∧ e ≠ "error"

/-- Well-behaved classifier oracle: every successful `DeepFace.analyze`
outcome carries real labels, never a sentinel string. -/
def FrameData.WellBehaved (fd : FrameData) : Prop :=
  ∀ reg res, fd.classify reg = Except.ok res →
    ∀ a ∈ res, realLabel a.dominant_emotion

/-- The readings that are ever current: the `__init__` placeholder, and
anything `process_frame` leaves in place or publishes from a current
reading, under a well-behaved classifier. -/
inductive CurrentReading : Reading → Prop where
  | init (t : Nat) : CurrentReading (initialReading t)
  | step (s : ServerState) (fd : FrameData) (hwf : fd.WellBehaved)
      (h : CurrentReading s.current_emotion_data) :
      CurrentReading ((process_frame s fd).current_emotion_data)

/-- Claim C2 counterexample: the placeholder reading created at construction
is current, has `faces_detected = 0`, and yet its emotion is `unknown`, not
`no_face` — the claimed "iff" fails on it. -/
theorem C2_counterexample :
    CurrentReading (initialReading 0) ∧
    ¬ ((initialReading 0).faces_detected = 0 ↔
        (initialReading 0).emotion = "no_face") :=
  ⟨CurrentReading.init 0, by decide⟩

/-- Claim C2 (amended): for every reading that is ever current,
`emotion = no_face` forces `faces_detected = 0`, and `faces_detected = 0`
forces the emotion to be one of the three sentinels `no_face`, `unknown`
(the placeholder) or `error` (classifier failure); the plain "iff" holds
only once the `unknown` and `error` sentinels are excluded. -/
theorem C2_amended_invariant (r : Reading) (h : CurrentReading r) :
    (r.emotion = "no_face" → r.faces_detected = 0) ∧
    (r.faces_detected = 0 →
      r.emotion = "no_face" ∨ r.emotion = "unknown" ∨ r.emotion = "error") := by
  induction h with
  | init t =>
    exact ⟨fun _ => rfl, fun _ => Or.inr (Or.inl rfl)⟩
  | step s fd hwf h ih =>
    cases hfaces : fd.faces with
    | nil =>
      rw [process_frame_none s fd hfaces]
      exact ⟨fun _ => rfl, fun _ => Or.inl rfl⟩
    | cons f fs =>
      cases hc : fd.classify (pyMaxAux f fs) with
      | error e =>
        rw [process_frame_exn s fd f fs e hfaces hc]
        exact ⟨fun h0 => absurd (show ("error" : String) = "no_face" from h0)
                 (by decide),
               fun _ => Or.inr (Or.inr rfl)⟩
      | ok res =>
        cases res with
        | nil =>
          rw [process_frame_ok_nil s fd f fs hfaces hc]
          exact ih
        | cons r0 rest =>
          cases hl : lookupScore r0.emotion_scores r0.dominant_emotion with
          | none =>
            rw [process_frame_key_error s fd f fs r0 rest hfaces hc hl]
            exact ⟨fun h0 => absurd (show ("error" : String) = "no_face" from h0)
                     (by decide),
                   fun _ => Or.inr (Or.inr rfl)⟩
          | some conf =>
            have hreal : realLabel r0.dominant_emotion :=
              hwf _ _ hc r0 (List.mem_cons_self r0 rest)
            rw [process_frame_ok s fd f fs r0 rest conf hfaces hc hl]
            constructor
            · intro hno
              exact absurd hno hreal.1
            · intro hfc
              rw [show ({ s with
                    current_emotion_data :=
                      successReading fd.now fd.faces.length r0 conf,
                    last_successful_detection :=
                      fd.mono } : ServerState).current_emotion_data.faces_detected
                  = fd.faces.length from rfl, hfaces] at hfc
              exact absurd hfc (Nat.succ_ne_zero fs.length)

theorem C2_witness :
    CurrentReading (initialReading 5) ∧
    (((initialReading 5).emotion = "no_face" →
        (initialReading 5).faces_detected = 0) ∧
     ((initialReading 5).faces_detected = 0 →
        (initialReading 5).emotion = "no_face" ∨
        (initialReading 5).emotion = "unknown" ∨
        (initialReading 5).emotion = "error")) :=
  ⟨CurrentReading.init 5,
   C2_amended_invariant (initialReading 5) (CurrentReading.init 5)⟩

/-!  Lifecycle: start. -/

theorem start_when_running (s : ServerState) (cok : Bool) (cam : Camera)
    (h : s.detection_running = true) :
    start_camera_detection s cok cam = (s, true) := by
  rw [start_camera_detection, if_pos h]

/-- A whole sequence of `start_camera_detection` calls, with each call's
cascade/camera oracle inputs, returning the final state and the list of
return values. -/
def startMany (s : ServerState) : List (Bool × Camera) → ServerState × List Bool
  | [] => (s, [])
  | i :: rest =>
    ((startMany (start_camera_detection s i.1 i.2).1 rest).1,
     (start_camera_detection s i.1 i.2).2 ::
       (startMany (start_camera_detection s i.1 i.2).1 rest).2)

theorem startMany_when_running (s : ServerState)
    (inputs : List (Bool × Camera)) (h : s.detection_running = true) :
    startMany s inputs = (s, List.replicate inputs.length true) := by
  induction inputs with
  | nil => rfl
  | cons i rest ih =>
    rw [startMany, start_when_running s i.1 i.2 h]
    rw [show ((s, true) : ServerState × Bool).1 = s from rfl,
        show ((s, true) : ServerState × Bool).2 = true from rfl, ih]
    rfl

/-- Claim C7: a successful `start` from Idle opens the camera once and
raises the running flag; after that, any sequence of further `start` calls
returns success every time and leaves the state — including the open count
and the running flag — entirely unchanged. -/
theorem C7_start_idempotent (s0 : ServerState) (cam : Camera)
    (inputs : List (Bool × Camera))
    (hidle : s0.detection_running = false) (hopen : cam.isOpened = true) :
    (start_camera_detection s0 true cam).2 = true ∧
    (start_camera_detection s0 true cam).1.detection_running = true ∧
    (start_camera_detection s0 true cam).1.camera_opens =
      s0.camera_opens + 1 ∧
    startMany (start_camera_detection s0 true cam).1 inputs =
      ((start_camera_detection s0 true cam).1,
       List.replicate inputs.length true) := by
  have hstart : start_camera_detection s0 true cam =
      ({ s0 with face_cascade_loaded := true, cap := some cam,
                 camera_opens := s0.camera_opens + 1,
                 detection_running := true,
                 threads_spawned := s0.threads_spawned + 1 }, true) := by
    rw [start_camera_detection, if_neg (by rw [hidle]; exact Bool.false_ne_true)]
    simp [initialize_camera, hopen]
  rw [hstart]
  exact ⟨rfl, rfl, rfl, startMany_when_running _ inputs rfl⟩

def camC7 : Camera := { isOpened := true }

theorem C7_witness :
    (initState 0 0).detection_running = false ∧ camC7.isOpened = true ∧
    (start_camera_detection (initState 0 0) true camC7).2 = true ∧
    (start_camera_detection (initState 0 0) true camC7).1.detection_running =
      true ∧
    (start_camera_detection (initState 0 0) true camC7).1.camera_opens = 1 ∧
    startMany (start_camera_detection (initState 0 0) true camC7).1
        [(true, camC7), (true, camC7)] =
      ((start_camera_detection (initState 0 0) true camC7).1, [true, true]) :=
  ⟨rfl, rfl,
   (C7_start_idempotent (initState 0 0) camC7 [(true, camC7), (true, camC7)]
      rfl rfl).1,
   (C7_start_idempotent (initState 0 0) camC7 [(true, camC7), (true, camC7)]
      rfl rfl).2.1,
   (C7_start_idempotent (initState 0 0) camC7 [(true, camC7), (true, camC7)]
      rfl rfl).2.2.1,
   (C7_start_idempotent (initState 0 0) camC7 [(true, camC7), (true, camC7)]
      rfl rfl).2.2.2⟩

/-- Claim C8: when the camera cannot be opened, `start_camera_detection`
returns failure, the running flag stays down, no detection thread is
spawned, and a later `get_status` reports `camera_connected = false` (the
unopened handle is stored, and `isOpened()` is false on it). -/
theorem C8_open_failure (s : ServerState) (cam : Camera) (now : Nat)
    (hidle : s.detection_running = false) (hcam : cam.isOpened = false) :
    (start_camera_detection s true cam).2 = false ∧
    (start_camera_detection s true cam).1.detection_running = false ∧
    (start_camera_detection s true cam).1.threads_spawned =
      s.threads_spawned ∧
    (get_status (start_camera_detection s true cam).1 now).camera_connected =
      false := by
  have hstart : start_camera_detection s true cam =
      ({ s with face_cascade_loaded := true, cap := some cam,
                camera_opens := s.camera_opens + 1 }, false) := by
    rw [start_camera_detection, if_neg (by rw [hidle]; exact Bool.false_ne_true)]
    simp [initialize_camera, hcam]
  rw [hstart]
  exact ⟨rfl, hidle, rfl, by simp [get_status, hcam]⟩

def camC8 : Camera := { isOpened := false }

theorem C8_witness :
    (initState 0 0).detection_running = false ∧ camC8.isOpened = false ∧
    (start_camera_detection (initState 0 0) true camC8).2 = false ∧
    (start_camera_detection (initState 0 0) true camC8).1.detection_running =
      false ∧
    (start_camera_detection (initState 0 0) true camC8).1.threads_spawned =
      0 ∧
    (get_status (start_camera_detection (initState 0 0) true camC8).1
        9).camera_connected = false :=
  ⟨rfl, rfl,
   (C8_open_failure (initState 0 0) camC8 9 rfl rfl).1,
   (C8_open_failure (initState 0 0) camC8 9 rfl rfl).2.1,
   (C8_open_failure (initState 0 0) camC8 9 rfl rfl).2.2.1,
   (C8_open_failure (initState 0 0) camC8 9 rfl rfl).2.2.2⟩
